import Mathlib

/-!
Shallow embedding of `src/app/pages/exoplanet/components/ExoplanetScene.ts`
(the `ExoplanetScene` visualization engine) and proofs about it.

Numeric conventions: the source computes with JS doubles; the embedding uses
exact arithmetic (`ℚ` for the executable parts, `ℝ` where trigonometric
functions appear).  Angles that the source expresses as multiples of
`Math.PI` are carried as rational coefficients of `π` so that the camera
state machine stays executable; the conversion to Cartesian coordinates is
the separate function `cameraXYZ`.
-/

namespace ExoplanetScene

/-- Fixed orbit radius of the camera, field `orbitRadius = 35` of the class. -/
def orbitRadius : ℚ := 35

/-- Fixed orbit height of the camera, field `orbitHeight = 5` of the class. -/
def orbitHeight : ℚ := 5

/-- Fixed zoom duration in milliseconds, `const duration = 5000` in
`startZoomToPlanet`. -/
def zoomDuration : ℚ := 5000

/-! ## Camera cinematic zoom (`startZoomToPlanet`, source lines 370–430) -/

/-- Progress value `t = Math.min(1, elapsed / duration)` computed at the top
of `zoomStep`.  The source's fixed `duration` is `5000 > 0`; for a positive
duration, JS float division and exact rational division agree. -/
def zoomT (elapsed duration : ℚ) : ℚ := min 1 (elapsed / duration)

/-- The easing used by `zoomStep`:
`t < 0.5 ? 2 * t * t : 1 - Math.pow(-2 * t + 2, 2) / 2`. -/
def easeInOutQuad (t : ℚ) : ℚ :=
  if t < 0.5 then 2 * t * t else 1 - (-2 * t + 2) ^ 2 / 2

/-- Camera pose in the polar form used by `zoomStep`: the azimuth is
`startAngle + sweep * π` (the coefficient `sweep` of `π` is kept rational),
together with the horizontal radius and the height `y`. -/
structure CameraPolar where
  sweep : ℚ
  radius : ℚ
  height : ℚ
deriving DecidableEq

/-- One execution of the body of `zoomStep` (source lines 385–427), as the
camera pose it writes.  `startLen` is `startPos.length()`, `startY` is
`startPos.y`.  In the branch `t < 1` the source sets
`currentAngle = startAngle + eased * Math.PI * 0.25`,
`currentRadius = startPos.length() - (startPos.length() - targetZ) * eased`,
`y = startPos.y + (targetY - startPos.y) * eased`; otherwise it snaps to the
analytic end pose `(cos(startAngle + π/4)·targetZ, targetY, sin(...)·targetZ)`
with `targetZ = orbitRadius` and `targetY = orbitHeight`. -/
def zoomStepPose (startLen startY elapsed duration : ℚ) : CameraPolar :=
  let t := zoomT elapsed duration
  if t < 1 then
    let eased := easeInOutQuad t
    { sweep := eased * 0.25
      radius := startLen - (startLen - orbitRadius) * eased
      height := startY + (orbitHeight - startY) * eased }
  else
    { sweep := 0.25, radius := orbitRadius, height := orbitHeight }

/-- Cartesian camera position corresponding to a polar pose:
`x = cos(startAngle + sweep·π) · radius`, `y = height`,
`z = sin(startAngle + sweep·π) · radius`, exactly as the source computes
`camera.position` from `currentAngle` and `currentRadius`. -/
noncomputable def cameraXYZ (startAngle : ℝ) (p : CameraPolar) : ℝ × ℝ × ℝ :=
  (Real.cos (startAngle + (p.sweep : ℝ) * Real.pi) * (p.radius : ℝ),
   (p.height : ℝ),
   Real.sin (startAngle + (p.sweep : ℝ) * Real.pi) * (p.radius : ℝ))

/-! ## Orbiting state (`animate`, source lines 525–530) -/

/-- Camera position while `orbiting` holds, as a function of the azimuth
`orbitAngle`:
`x = cos(orbitAngle) * orbitRadius`,
`y = orbitHeight + sin(orbitAngle * 0.4) * 1.5`,
`z = sin(orbitAngle) * orbitRadius`. -/
noncomputable def orbitCameraPos (a : ℝ) : ℝ × ℝ × ℝ :=
  (Real.cos a * (orbitRadius : ℝ),
   (orbitHeight : ℝ) + Real.sin (a * 0.4) * 1.5,
   Real.sin a * (orbitRadius : ℝ))

/-! ## Orbital kinematics of the solar-system planets
(`animate`, source lines 502–513) -/

/-- One entry of the `planets` array together with the scene-graph rotations
that `animate` mutates: `angle` is the orbital accumulator `planet.angle`,
`orbitRotY` is `planet.orbitGroup.rotation.y`, `meshRotY` and `meshRotX` are
`planet.mesh.rotation.y` and `planet.mesh.rotation.x`. -/
structure PlanetBody where
  angle : ℚ
  orbitRotY : ℚ
  meshRotY : ℚ
  meshRotX : ℚ
  speed : ℚ
  rotationSpeed : ℚ
deriving DecidableEq

/-- Fixed damping factor `0.15` in `planet.angle += delta * planet.speed * 0.15`. -/
def orbitScaleFactor : ℚ := 0.15

/-- The per-planet body of the `forEach` in `animate` (source lines 502–513):
`planet.angle += delta * planet.speed * 0.15`;
`planet.orbitGroup.rotation.y = planet.angle`;
`planet.mesh.rotation.y += delta * planet.rotationSpeed`;
`planet.mesh.rotation.x += delta * planet.rotationSpeed * 0.1`. -/
def stepPlanet (delta : ℚ) (p : PlanetBody) : PlanetBody :=
  { p with
    angle := p.angle + delta * p.speed * orbitScaleFactor
    orbitRotY := p.angle + delta * p.speed * orbitScaleFactor
    meshRotY := p.meshRotY + delta * p.rotationSpeed
    meshRotX := p.meshRotX + delta * p.rotationSpeed * 0.1 }

/-- The whole `this.planets.forEach(...)` update of one frame. -/
def advance (delta : ℚ) (ps : List PlanetBody) : List PlanetBody :=
  ps.map (stepPlanet delta)

/-! ## Star field (`createStarfield`, source lines 223–261) -/

/-- Maximum star distance, the constant `800` in `800 * Math.cbrt(Math.random())`. -/
def starRMax : ℚ := 800

/-- Sampled star radius `r = 800 * Math.cbrt(u)` for a uniform draw `u`. -/
noncomputable def starRadius (u : ℝ) : ℝ := (starRMax : ℝ) * u ^ ((1 : ℝ) / 3)

/-- Cartesian star position built from the three uniform draws of one loop
iteration: `theta = v * π * 2`, `phi = acos(2w − 1)`,
`x = r sin φ cos θ`, `y = r sin φ sin θ`, `z = r cos φ`. -/
noncomputable def starPosition (u v w : ℝ) : ℝ × ℝ × ℝ :=
  let r := starRadius u
  let theta := v * Real.pi * 2
  let phi := Real.arccos (2 * w - 1)
  (r * Real.sin phi * Real.cos theta,
   r * Real.sin phi * Real.sin theta,
   r * Real.cos phi)

/-- The fixed `colorOptions` palette: white, blue, green, yellow, purple. -/
def starPalette : List ℕ := [0xffffff, 0x88ccff, 0x80ff80, 0xffee88, 0xd18aff]

/-- Palette index `Math.floor(c * colorOptions.length)` for a uniform draw
`c`, with `colorOptions.length = 5`. -/
def starColorIndex (c : ℚ) : ℕ := Int.toNat ⌊c * 5⌋

/-- Color assigned to one star: `colorOptions[starColorIndex c]`. -/
def starColor (c : ℚ) : ℕ := starPalette.getD (starColorIndex c) 0

/-! ## Procedural texture and normal-map synthesis
(`createProceduralTexture` lines 141–174, `generateNormalMapCanvas`
lines 178–221) -/

/-- Source image handed to `generateNormalMapCanvas`.  `width`/`height` are
the `img.width`/`img.height` properties; `content` is the RGBA byte stream
that `ctx.drawImage(img, 0, 0, w, h)` followed by `ctx.getImageData` yields
on a same-sized canvas; `drawable = false` models a broken or undrawable
source, on which `drawImage` throws (`InvalidStateError`) and control jumps
to the `catch` branch. -/
structure SourceImage where
  width : ℕ
  height : ℕ
  content : List ℚ
  drawable : Bool

/-- Normal-map pixel buffer (the `nImg : ImageData` the source fills):
row-major RGBA bytes, one 4-tuple per pixel. -/
structure NormalMap where
  width : ℕ
  height : ℕ
  pixels : List (ℕ × ℕ × ℕ × ℕ)
deriving DecidableEq

/-- Luminance numerator `(data[i] + data[i+1] + data[i+2]) / 3` read at byte
offset `i`; out-of-range reads default to `0` (the loop below only performs
in-range reads). -/
def lumAt (data : List ℚ) (i : ℕ) : ℚ :=
  (data.getD i 0 + data.getD (i + 1) 0 + data.getD (i + 2) 0) / 3

/-- Storing `Math.floor(v * 255)` into the `Uint8ClampedArray` cell of
`nImg.data`: floor, then clamp to the byte range. -/
def packByte (v : ℚ) : ℕ := (max 0 (min 255 ⌊v * 255⌋)).toNat

/-- Body of the double loop of `generateNormalMapCanvas`
(source lines 197–211) for the pixel at `(x, y)`:
`i = (y*w + x) * 4`; `l = (data[i]+data[i+1]+data[i+2]) / 3 / 255`;
`lx = (((x < w-1 ? lum(i+4) : l*255) / 255) - l) * intensity` and
symmetrically `ly` with offset `w*4`; `nx = (lx*2 + 1) * 0.5`,
`ny = (ly*2 + 1) * 0.5`; the emitted RGBA bytes are
`(floor(nx*255), floor(ny*255), 255, 255)`. -/
def normalPixel (data : List ℚ) (w h x y : ℕ) (intensity : ℚ) : ℕ × ℕ × ℕ × ℕ :=
  let i := (y * w + x) * 4
  let l := lumAt data i / 255
  let lx := ((if x < w - 1 then lumAt data (i + 4) else l * 255) / 255 - l) * intensity
  let ly := ((if y < h - 1 then lumAt data (i + w * 4) else l * 255) / 255 - l) * intensity
  let nx := (lx * 2 + 1) * 0.5
  let ny := (ly * 2 + 1) * 0.5
  (packByte nx, packByte ny, 255, 255)

/-- The `||`-defaulting `img.width || 1024` of the source (`0` is falsy). -/
def dimOrDefault (n : ℕ) : ℕ := if n = 0 then 1024 else n

/-- The `try` part of `generateNormalMapCanvas`: draw the image, read the
pixel data back, and fill the normal-map buffer pixel by pixel (row-major,
`x = k % w`, `y = k / w`).  An undrawable source makes `drawImage` throw,
modelled as the `Except.error` case. -/
def generateNormalMapBody (img : SourceImage) (intensity : ℚ) :
    Except String NormalMap :=
  if img.drawable then
    let w := dimOrDefault img.width
    let h := dimOrDefault img.height
    .ok { width := w, height := h,
          pixels := (List.range (h * w)).map fun k =>
            normalPixel img.content w h (k % w) (k / w) intensity }
  else
    .error "InvalidStateError"

/-- Result of texture synthesis as seen by the caller: either a derived
normal map, or the texture `createProceduralTexture()` returns (whose pixel
values are randomized; only its identity matters to the claims). -/
inductive SynthTexture
  | normalMapTex (nm : NormalMap)
  | proceduralTex
deriving DecidableEq

/-- The full `generateNormalMapCanvas(img, intensity)` including its
`try/catch`: on any internal failure the `catch` branch returns
`this.createProceduralTexture()` instead. -/
def generateNormalMapCanvas (img : SourceImage) (intensity : ℚ) : SynthTexture :=
  match generateNormalMapBody img intensity with
  | .ok nm => .normalMapTex nm
  | .error _ => .proceduralTex

/-! ## Exoplanet material and the texture-load callbacks
(constructor, source lines 79–128) -/

/-- Color or normal texture slot of the exoplanet material. -/
inductive TexSlot
  | loadedAsset
  | proceduralFallback
  | normalOfLoadedAsset
deriving DecidableEq

/-- The mutable fields of `planetMat` that the load callbacks touch. -/
structure PlanetMaterial where
  map : Option TexSlot
  normalMap : Option TexSlot
  roughness : ℚ
  metalness : ℚ
deriving DecidableEq

/-- The provisional material built at lines 83–89: no map, no normal map,
`roughness: 0.55`, `metalness: 0.03`. -/
def initialPlanetMaterial : PlanetMaterial :=
  { map := none, normalMap := none, roughness := 0.55, metalness := 0.03 }

/-- Success callback of `loader.load` (source lines 97–119): applies the
loaded texture as `map`, derives a normal map from its image via
`generateNormalMapCanvas(..., 3.0)` and applies it, and sets
`roughness = 0.6`, `metalness = 0.01`. -/
def onTextureLoaded (m : PlanetMaterial) : PlanetMaterial :=
  { m with map := some .loadedAsset, normalMap := some .normalOfLoadedAsset,
           roughness := 0.6, metalness := 0.01 }

/-- Error callback of `loader.load` (source lines 121–127): applies only the
procedural fallback as `map` and sets `roughness = 0.7`; the `normalMap`
slot is left untouched. -/
def onTextureError (m : PlanetMaterial) : PlanetMaterial :=
  { m with map := some .proceduralFallback, roughness := 0.7 }

/-! ## Resize handler (`onWindowResize`, source lines 478–484) -/

/-- JS double as far as the resize computation can observe it: a finite
rational, an infinity, or NaN.  `clientWidth / clientHeight` on a detached
or zero-sized container divides by zero, which in JS yields `NaN` (for
`0/0`) or `±Infinity`, never an exception. -/
inductive JSNum
  | fin (q : ℚ)
  | posInf
  | negInf
  | nan
deriving DecidableEq

/-- JS division of two finite values. -/
def jsDiv (a b : ℚ) : JSNum :=
  if b = 0 then (if a = 0 then .nan else if 0 < a then .posInf else .negInf)
  else .fin (a / b)

/-- State touched by `onWindowResize`: `containerNull` is the guard
`!this.container` (the constructor always sets `this.container`, and a
detached DOM element is still a non-null object); `containerW`/`containerH`
are the container's `clientWidth`/`clientHeight` (both `0` when the element
is detached or zero-sized); `aspect` is `camera.aspect`; `rendererW`/
`rendererH` the renderer's buffer size set by `renderer.setSize`. -/
structure ResizeState where
  containerNull : Bool
  containerW : ℚ
  containerH : ℚ
  aspect : JSNum
  rendererW : ℚ
  rendererH : ℚ
deriving DecidableEq

/-- The arrow function `onWindowResize`: return early if `!this.container`;
otherwise `camera.aspect = clientWidth / clientHeight` and
`renderer.setSize(clientWidth, clientHeight)`
(`updateProjectionMatrix` mutates no field modelled here). -/
def onWindowResize (s : ResizeState) : ResizeState :=
  if s.containerNull then s
  else { s with aspect := jsDiv s.containerW s.containerH,
                rendererW := s.containerW, rendererH := s.containerH }

/-! ## Frame scheduling, the startup timer, and `dispose`
(constructor lines 130–138, `startZoomToPlanet` lines 370–430,
`animate` line 487, `dispose` lines 539–557)

The browser scheduler is modelled explicitly: `requestAnimationFrame`
enqueues a callback under a fresh numeric id, `cancelAnimationFrame id`
removes the callback with that id.  The engine registers two distinct
callbacks: the main loop `this.animate` (whose id the engine stores in
`this.animationId` on every frame) and the local `zoomStep` closure of
`startZoomToPlanet`, whose `requestAnimationFrame(zoomStep)` return value is
discarded by the source.  The `setTimeout(() => this.startZoomToPlanet(), 800)`
of the constructor is the startup timer; the source never stores or clears
its handle. -/

/-- Which callback a pending animation-frame entry runs. -/
inductive CallbackKind
  | mainLoop
  | zoomFrame
deriving DecidableEq

/-- One pending `requestAnimationFrame` registration. -/
structure FrameCallback where
  id : ℕ
  kind : CallbackKind
deriving DecidableEq

/-- The engine and scheduler state that `dispose`, the startup timer and the
zoom chain touch.  `cameraPose` is the camera pose in the polar form of
`CameraPolar`; `zoomStartLen`/`zoomStartY` are `startPos.length()` and
`startPos.y` captured by `startZoomToPlanet`; `zoomStartTime` is its
`startTime`. -/
structure EngineState where
  pendingFrames : List FrameCallback
  startupTimerPending : Bool
  animationId : Option ℕ
  resizeListenerAttached : Bool
  planetGeoDisposed : Bool
  planetMatDisposed : Bool
  starsGeoDisposed : Bool
  starsMatDisposed : Bool
  rendererDisposed : Bool
  domAttached : Bool
  zooming : Bool
  zoomStartTime : ℚ
  zoomStartLen : ℚ
  zoomStartY : ℚ
  cameraPose : CameraPolar
  nextFrameId : ℕ
deriving DecidableEq

/-- `requestAnimationFrame(cb)`: enqueue `cb` under a fresh id and return
that id. -/
def requestFrame (kind : CallbackKind) (s : EngineState) : ℕ × EngineState :=
  (s.nextFrameId,
   { s with pendingFrames := s.pendingFrames ++ [⟨s.nextFrameId, kind⟩],
            nextFrameId := s.nextFrameId + 1 })

/-- `cancelAnimationFrame(id)`: drop the pending callback with that id
(a no-op on an id that is no longer pending; it never throws). -/
def cancelFrame (id : ℕ) (s : EngineState) : EngineState :=
  { s with pendingFrames := s.pendingFrames.filter fun d => d.id ≠ id }

/-- The scheduling part of one `animate` frame (source line 487):
`this.animationId = requestAnimationFrame(this.animate)` after the fired
callback has left the queue. -/
def fireMainLoop (c : FrameCallback) (s : EngineState) : EngineState :=
  let s1 := { s with pendingFrames := s.pendingFrames.filter fun d => d.id ≠ c.id }
  let (id, s2) := requestFrame .mainLoop s1
  { s2 with animationId := some id }

/-- Body of the `zoomStep` closure executed at wall-clock time `now`
(source lines 385–427): write the camera pose for
`elapsed = now - startTime`; while `t < 1`, `requestAnimationFrame(zoomStep)`
(the returned id is discarded — `this.animationId` is not updated);
at `t = 1` the terminal pose is written and `this.zooming = false`. -/
def zoomStepRun (now : ℚ) (s : EngineState) : EngineState :=
  let elapsed := now - s.zoomStartTime
  let s1 := { s with cameraPose := zoomStepPose s.zoomStartLen s.zoomStartY elapsed zoomDuration }
  if zoomT elapsed zoomDuration < 1 then (requestFrame .zoomFrame s1).2
  else { s1 with zooming := false }

/-- A pending `zoomStep` animation frame fires at time `now`: it leaves the
queue and its body runs. -/
def fireZoomFrame (now : ℚ) (c : FrameCallback) (s : EngineState) : EngineState :=
  zoomStepRun now { s with pendingFrames := s.pendingFrames.filter fun d => d.id ≠ c.id }

/-- `startZoomToPlanet()` (source lines 370–430): set `this.zooming = true`,
capture `startTime = now`, and call `zoomStep()` synchronously once. -/
def startZoomToPlanet (now : ℚ) (s : EngineState) : EngineState :=
  zoomStepRun now { s with zooming := true, zoomStartTime := now }

/-- The constructor's `setTimeout(() => this.startZoomToPlanet(), 800)`
firing at time `now`.  Nothing ever clears this timer, so it fires exactly
once whenever it is still pending. -/
def fireStartupTimer (now : ℚ) (s : EngineState) : EngineState :=
  if s.startupTimerPending then
    startZoomToPlanet now { s with startupTimerPending := false }
  else s

/-- `parentElement.removeChild(child)`: throws `NotFoundError` when the
child is not attached to that parent. -/
def removeChildOp (s : EngineState) : Except String EngineState :=
  if s.domAttached then .ok { s with domAttached := false }
  else .error "NotFoundError"

/-- `dispose()` (source lines 539–557): cancel the frame whose id is
`this.animationId` (when set), remove the resize listener, dispose the
exoplanet's geometry and material, the star field's geometry and material,
and the renderer (all of these release calls are idempotent and cannot
throw), then detach the renderer's DOM element — guarded by
`if (this.renderer.domElement.parentElement)`. -/
def dispose (s : EngineState) : Except String EngineState :=
  let s1 := match s.animationId with
    | some id => cancelFrame id s
    | none => s
  let s2 := { s1 with resizeListenerAttached := false,
                      planetGeoDisposed := true, planetMatDisposed := true,
                      starsGeoDisposed := true, starsMatDisposed := true,
                      rendererDisposed := true }
  if s2.domAttached then removeChildOp s2 else .ok s2

/-- The state `dispose` produces, as a plain function. -/
def disposePure (s : EngineState) : EngineState :=
  let s1 := match s.animationId with
    | some id => cancelFrame id s
    | none => s
  { s1 with resizeListenerAttached := false,
            planetGeoDisposed := true, planetMatDisposed := true,
            starsGeoDisposed := true, starsMatDisposed := true,
            rendererDisposed := true, domAttached := false }

theorem dispose_eq_pure (s : EngineState) : dispose s = .ok (disposePure s) := by
  unfold dispose disposePure removeChildOp
  cases h : s.animationId <;> by_cases hd : s.domAttached <;>
    simp_all [cancelFrame]

/-! ## Theorems -/

/-- C4: in the Orbiting state, advancing the azimuth by `2π` returns the
camera to the same `(x, z)` position (both horizontal coordinates are
`2π`-periodic in the azimuth), and the vertical position is the fixed orbit
height plus a small-amplitude sinusoid of the azimuth alone — not of
wall-clock time. -/
theorem orbit_camera_periodic_and_height_from_azimuth (a : ℝ) :
    (orbitCameraPos (a + 2 * Real.pi)).1 = (orbitCameraPos a).1 ∧
    (orbitCameraPos (a + 2 * Real.pi)).2.2 = (orbitCameraPos a).2.2 ∧
    (orbitCameraPos a).2.1 = (orbitHeight : ℝ) + Real.sin (a * 0.4) * 1.5 := by
  refine ⟨?_, ?_, rfl⟩ <;>
    simp [orbitCameraPos, Real.cos_add_two_pi, Real.sin_add_two_pi]

/-- C2: one step of the orbital kinematics update maps each body of the
registry independently through the pure function `stepPlanet`: the orbit
angle becomes exactly `previousAngle + dt · angularSpeed · 0.15`, that same
angle is applied as the orbit pivot's rotation, the self-rotation advances
by `dt · selfRotationSpeed`, and the secondary wobble axis advances at
one-tenth that rate; the body's own parameters are untouched. -/
theorem advance_orbit_kinematics (delta : ℚ) (ps : List PlanetBody)
    (i : ℕ) (p : PlanetBody) (h : ps[i]? = some p) :
    (advance delta ps)[i]? = some (stepPlanet delta p) ∧
    (stepPlanet delta p).angle = p.angle + delta * p.speed * orbitScaleFactor ∧
    (stepPlanet delta p).orbitRotY = (stepPlanet delta p).angle ∧
    (stepPlanet delta p).meshRotY = p.meshRotY + delta * p.rotationSpeed ∧
    (stepPlanet delta p).meshRotX = p.meshRotX + delta * p.rotationSpeed * (1 / 10) ∧
    (stepPlanet delta p).speed = p.speed ∧
    (stepPlanet delta p).rotationSpeed = p.rotationSpeed := by
  refine ⟨?_, rfl, rfl, rfl, ?_, rfl, rfl⟩
  · simp [advance, List.getElem?_map, h]
  · show p.meshRotX + delta * p.rotationSpeed * 0.1 = _
    norm_num

/-- Witness for C2 at a concrete registry and step. -/
theorem advance_orbit_kinematics_witness :
    (advance 2 [{ angle := 1, orbitRotY := 1, meshRotY := 0, meshRotX := 0,
                  speed := 0.6, rotationSpeed := 0.4 }])[0]? =
      some (stepPlanet 2 { angle := 1, orbitRotY := 1, meshRotY := 0, meshRotX := 0,
                           speed := 0.6, rotationSpeed := 0.4 }) :=
  (advance_orbit_kinematics 2 _ 0 _ rfl).1

/-- C5 counterexample: the asset-load-failure branch of the constructor
applies only the procedural fallback color texture; starting from the
provisional material, after the error callback the `normalMap` slot is still
empty, so the failure branch does not end with a derived normal map the way
the success branch does. -/
theorem texture_error_branch_has_no_normal_map :
    (onTextureError initialPlanetMaterial).map = some .proceduralFallback ∧
    (onTextureError initialPlanetMaterial).normalMap = none := by
  decide

/-- C5 amended: when the external texture fetch fails, the error callback
applies the procedurally synthesized color texture and sets roughness to
`0.7`, but leaves the normal-map slot unchanged (so it stays empty); a
derived normal map is applied only in the success branch. -/
theorem texture_error_branch_fallback_map_only (m : PlanetMaterial) :
    (onTextureError m).map = some .proceduralFallback ∧
    (onTextureError m).normalMap = m.normalMap ∧
    (onTextureError m).roughness = 0.7 ∧
    (onTextureError m).metalness = m.metalness ∧
    (onTextureLoaded m).map = some .loadedAsset ∧
    (onTextureLoaded m).normalMap = some .normalOfLoadedAsset :=
  ⟨rfl, rfl, rfl, rfl, rfl, rfl⟩

/-- Resize state of an engine whose container is detached or zero-sized:
`clientWidth` and `clientHeight` both report `0`, while the container
reference itself is still a non-null object, so the `!this.container` guard
does not fire. -/
def zeroSizeResizeState : ResizeState :=
  { containerNull := false, containerW := 0, containerH := 0,
    aspect := .fin (4 / 3), rendererW := 800, rendererH := 600 }

/-- C8 counterexample: with a zero-sized (e.g. detached) container the
resize handler is not a no-op — it overwrites a previously valid aspect
ratio with `0 / 0 = NaN` and shrinks the output buffer to `0 × 0`, leaving
the camera with a non-finite aspect rather than in a valid state. -/
theorem resize_zero_size_is_not_a_noop :
    onWindowResize zeroSizeResizeState ≠ zeroSizeResizeState ∧
    (onWindowResize zeroSizeResizeState).aspect = JSNum.nan ∧
    (onWindowResize zeroSizeResizeState).rendererW = 0 ∧
    (onWindowResize zeroSizeResizeState).rendererH = 0 := by
  refine ⟨?_, rfl, rfl, rfl⟩
  intro h
  have := congrArg ResizeState.aspect h
  simp [onWindowResize, zeroSizeResizeState, jsDiv] at this

/-- C8 amended: the resize handler sets the camera aspect ratio to container
width divided by container height and resizes the output buffer, and it
raises no exception for any dimensions; but a container with zero dimensions
is not treated as a no-op — the handler still runs, setting the aspect to
the non-finite value `0 / 0 = NaN` and the buffer to zero size.  The only
no-op guard is a null container reference. -/
theorem resize_updates_aspect_and_buffer (s : ResizeState) :
    (s.containerNull = false → 0 < s.containerH →
      (onWindowResize s).aspect = .fin (s.containerW / s.containerH) ∧
      (onWindowResize s).rendererW = s.containerW ∧
      (onWindowResize s).rendererH = s.containerH) ∧
    (s.containerNull = false → s.containerW = 0 → s.containerH = 0 →
      (onWindowResize s).aspect = JSNum.nan ∧
      (onWindowResize s).rendererW = 0 ∧ (onWindowResize s).rendererH = 0) ∧
    (s.containerNull = true → onWindowResize s = s) := by
  refine ⟨fun hn hh => ?_, fun hn hw hh => ?_, fun hn => ?_⟩
  · have hne : s.containerH ≠ 0 := ne_of_gt hh
    simp [onWindowResize, jsDiv, hn, hne]
  · simp [onWindowResize, jsDiv, hn, hw, hh]
  · simp [onWindowResize, hn]

/-- Witness for C8 amended: a 400 × 300 container yields aspect `4 / 3`. -/
theorem resize_updates_aspect_witness :
    (onWindowResize { containerNull := false, containerW := 400, containerH := 300,
                      aspect := .fin (800 / 600), rendererW := 800,
                      rendererH := 600 }).aspect = .fin (4 / 3) := by
  have h := (resize_updates_aspect_and_buffer
    { containerNull := false, containerW := 400, containerH := 300,
      aspect := .fin (800 / 600), rendererW := 800, rendererH := 600 }).1
    rfl (by norm_num)
  rw [h.1]
  norm_num

/-- Progress is exactly `1` as soon as the elapsed time reaches the
duration, however large the overshoot. -/
theorem zoomT_eq_one {elapsed duration : ℚ} (hd : 0 < duration)
    (h : duration ≤ elapsed) : zoomT elapsed duration = 1 :=
  min_eq_left ((one_le_div hd).2 h)

/-- Progress stays below `1` strictly inside the duration. -/
theorem zoomT_lt_one {elapsed duration : ℚ} (hd : 0 < duration)
    (h : elapsed < duration) : zoomT elapsed duration < 1 :=
  min_lt_iff.mpr (Or.inr ((div_lt_one hd).2 h))

/-- Once the elapsed time reaches the duration, `zoomStep` writes the
analytic terminal pose, independent of the start pose. -/
theorem zoomStepPose_terminal (startLen startY : ℚ) {elapsed duration : ℚ}
    (hd : 0 < duration) (h : duration ≤ elapsed) :
    zoomStepPose startLen startY elapsed duration =
      { sweep := 0.25, radius := orbitRadius, height := orbitHeight } := by
  unfold zoomStepPose
  rw [zoomT_eq_one hd h, if_neg (lt_irrefl 1)]

/-- Symmetry of the zoom easing curve: the quadratic ease-out half mirrors
the quadratic ease-in half around `t = 1/2`. -/
theorem easeInOutQuad_one_sub (t : ℚ) :
    easeInOutQuad (1 - t) = 1 - easeInOutQuad t := by
  unfold easeInOutQuad
  rcases lt_trichotomy t 0.5 with h | h | h
  · rw [if_pos h, if_neg (by norm_num; linarith)]
    ring
  · rw [h]
    norm_num
  · rw [if_pos (show (1 : ℚ) - t < 0.5 by linarith),
        if_neg (show ¬ t < 0.5 by linarith)]
    ring

/-- C1: during ZoomingIn, the progress `t` is `clamp(elapsed/duration, 0, 1)`
(the source's `Math.min(1, elapsed/duration)`, which for nonnegative elapsed
time and positive duration coincides with the clamp), the easing is the
symmetric quadratic curve fixing `0` and `1`, and as soon as
`elapsed ≥ duration` — even when a single frame overshoots the whole
duration — `t` is exactly `1` and the camera is snapped to the analytically
computed end pose: azimuth `startAngle + π/4`, radius `orbitRadius = 35`,
height `orbitHeight = 5`, rather than the last iteratively eased position. -/
theorem zoom_progress_ease_and_terminal_pose (startAngle : ℝ)
    (startLen startY elapsed duration : ℚ)
    (h0 : 0 ≤ elapsed) (hd : 0 < duration) :
    zoomT elapsed duration = max 0 (min 1 (elapsed / duration)) ∧
    (easeInOutQuad 0 = 0 ∧ easeInOutQuad 1 = 1 ∧
      ∀ t : ℚ, easeInOutQuad (1 - t) = 1 - easeInOutQuad t) ∧
    (elapsed < duration →
      zoomStepPose startLen startY elapsed duration =
        { sweep := easeInOutQuad (zoomT elapsed duration) * 0.25
          radius := startLen - (startLen - orbitRadius) *
            easeInOutQuad (zoomT elapsed duration)
          height := startY + (orbitHeight - startY) *
            easeInOutQuad (zoomT elapsed duration) }) ∧
    (duration ≤ elapsed →
      zoomT elapsed duration = 1 ∧
      zoomStepPose startLen startY elapsed duration =
        { sweep := 0.25, radius := orbitRadius, height := orbitHeight } ∧
      cameraXYZ startAngle (zoomStepPose startLen startY elapsed duration) =
        (Real.cos (startAngle + Real.pi / 4) * 35, 5,
         Real.sin (startAngle + Real.pi / 4) * 35)) := by
  refine ⟨?_, ⟨by norm_num [easeInOutQuad], by norm_num [easeInOutQuad],
    easeInOutQuad_one_sub⟩, ?_, ?_⟩
  · exact (max_eq_right (le_min zero_le_one (div_nonneg h0 hd.le))).symm
  · intro h
    unfold zoomStepPose
    rw [if_pos (zoomT_lt_one hd h)]
  · intro h
    have hpose := zoomStepPose_terminal startLen startY hd h
    refine ⟨zoomT_eq_one hd h, hpose, ?_⟩
    rw [hpose]
    unfold cameraXYZ orbitRadius orbitHeight
    have harg : startAngle + ((0.25 : ℚ) : ℝ) * Real.pi =
        startAngle + Real.pi / 4 := by
      norm_num
      ring
    simp only [harg]
    norm_num

/-- Witness for C1 at an overshooting elapsed time of 6000 ms against the
fixed 5000 ms duration. -/
theorem zoom_terminal_pose_witness :
    (0 : ℚ) ≤ 6000 ∧ (0 : ℚ) < 5000 ∧
    zoomT 6000 5000 = 1 ∧
    zoomStepPose 129 12 6000 5000 =
      { sweep := 0.25, radius := orbitRadius, height := orbitHeight } := by
  have h := zoom_progress_ease_and_terminal_pose 0 129 12 6000 5000
    (by norm_num) (by norm_num)
  exact ⟨by norm_num, by norm_num,
    (h.2.2.2 (by norm_num)).1, (h.2.2.2 (by norm_num)).2.1⟩

/-- C9: for every generated star point the sampled radius `800·cbrt(u)` is
nonnegative and never exceeds `R_max = 800`, its cube is the linear image
`800³·u` of the uniform draw (so `radius³` inherits the uniform
distribution, i.e. volume-uniform density), the Cartesian position produced
from `theta = 2π·v` and `phi = acos(2w−1)` lies at exactly that radius from
the origin, and the color is drawn from the fixed five-entry palette
(white, blue, green, yellow, purple) with index `⌊5c⌋`, each entry selected
exactly on one of the five equal-length subintervals of `[0,1)`. -/
theorem starfield_sampling (u v w : ℝ) (c : ℚ)
    (hu0 : 0 ≤ u) (hu1 : u < 1) (hc0 : 0 ≤ c) (hc1 : c < 1) :
    0 ≤ starRadius u ∧
    starRadius u ≤ (starRMax : ℝ) ∧
    starRadius u ^ 3 = (starRMax : ℝ) ^ 3 * u ∧
    (starPosition u v w).1 ^ 2 + (starPosition u v w).2.1 ^ 2 +
      (starPosition u v w).2.2 ^ 2 = starRadius u ^ 2 ∧
    starColorIndex c < 5 ∧
    starPalette.length = 5 ∧
    starColor c ∈ starPalette ∧
    (∀ k : ℕ, k < 5 →
      (starColorIndex c = k ↔ (k : ℚ) / 5 ≤ c ∧ c < ((k : ℚ) + 1) / 5)) := by
  have hrm : (starRMax : ℝ) = 800 := by norm_num [starRMax]
  have hpow : (0 : ℝ) ≤ u ^ ((1 : ℝ) / 3) := Real.rpow_nonneg hu0 _
  have hidx : starColorIndex c < 5 := by
    have hlt : ⌊c * 5⌋ < 5 := Int.floor_lt.mpr (by push_cast; linarith)
    unfold starColorIndex
    omega
  refine ⟨?_, ?_, ?_, ?_, hidx, rfl, ?_, ?_⟩
  · unfold starRadius
    exact mul_nonneg (by rw [hrm]; norm_num) hpow
  · unfold starRadius
    rw [hrm]
    nlinarith [Real.rpow_le_one hu0 hu1.le (by norm_num : (0:ℝ) ≤ 1/3)]
  · unfold starRadius
    have h3 : (u ^ ((1 : ℝ) / 3)) ^ (3 : ℕ) = u := by
      rw [← Real.rpow_natCast (u ^ ((1 : ℝ) / 3)) 3, ← Real.rpow_mul hu0]
      norm_num
    calc ((starRMax : ℝ) * u ^ ((1 : ℝ) / 3)) ^ 3
        = (starRMax : ℝ) ^ 3 * (u ^ ((1 : ℝ) / 3)) ^ (3 : ℕ) := by ring
      _ = (starRMax : ℝ) ^ 3 * u := by rw [h3]
  · simp only [starPosition]
    have h1 := Real.sin_sq_add_cos_sq (v * Real.pi * 2)
    have h2 := Real.sin_sq_add_cos_sq (Real.arccos (2 * w - 1))
    linear_combination (starRadius u * Real.sin (Real.arccos (2 * w - 1))) ^ 2 * h1 +
      starRadius u ^ 2 * h2
  · unfold starColor
    rw [List.getD_eq_getElem starPalette 0 (by simpa using hidx)]
    exact List.getElem_mem _
  · intro k hk
    have htn : starColorIndex c = k ↔ ⌊c * 5⌋ = (k : ℤ) := by
      unfold starColorIndex
      have h0 : 0 ≤ ⌊c * 5⌋ := Int.floor_nonneg.mpr (by positivity)
      omega
    rw [htn, Int.floor_eq_iff]
    constructor
    · rintro ⟨ha, hb⟩
      push_cast at ha hb
      constructor <;> linarith
    · rintro ⟨ha, hb⟩
      push_cast
      constructor <;> linarith

/-- Witness for C9 at the concrete draws `u = 1/2`, `v = 1/3`, `w = 1/4`,
`c = 1/2`. -/
theorem starfield_sampling_witness :
    starRadius (1 / 2) ^ 3 = (starRMax : ℝ) ^ 3 * (1 / 2) ∧
    starColorIndex (1 / 2) < 5 ∧ starColor (1 / 2) ∈ starPalette := by
  have h := starfield_sampling (1 / 2) (1 / 3) (1 / 4) (1 / 2)
    (by norm_num) (by norm_num) (by norm_num) (by norm_num)
  exact ⟨h.2.2.1, h.2.2.2.2.1, h.2.2.2.2.2.2.1⟩

/-- C6: the normal-map synthesizer never propagates an internal failure:
whatever the input image (drawable or not) and intensity, the `try/catch`
yields either a derived normal map or the base procedural texture, and every
internal failure — in particular an undrawable/broken source image — is
mapped to the base procedural texture as a best-effort substitute. -/
theorem normal_map_synthesis_never_raises (img : SourceImage) (intensity : ℚ) :
    (∀ e, generateNormalMapBody img intensity = .error e →
      generateNormalMapCanvas img intensity = .proceduralTex) ∧
    ((∃ nm, generateNormalMapCanvas img intensity = .normalMapTex nm) ∨
      generateNormalMapCanvas img intensity = .proceduralTex) ∧
    (img.drawable = false → generateNormalMapCanvas img intensity = .proceduralTex) := by
  refine ⟨fun e he => ?_, ?_, fun hnd => ?_⟩
  · unfold generateNormalMapCanvas
    rw [he]
  · unfold generateNormalMapCanvas
    cases h : generateNormalMapBody img intensity with
    | ok nm => exact Or.inl ⟨nm, rfl⟩
    | error e => exact Or.inr rfl
  · unfold generateNormalMapCanvas generateNormalMapBody
    simp [hnd]

/-- Image whose pixel source is broken: `drawImage` throws on it. -/
def brokenImage : SourceImage :=
  { width := 0, height := 0, content := [], drawable := false }

/-- Witness for C6: on a broken zero-size image the synthesizer returns the
base procedural texture. -/
theorem normal_map_synthesis_never_raises_witness :
    generateNormalMapCanvas brokenImage 3 = .proceduralTex :=
  (normal_map_synthesis_never_raises brokenImage 3).2.2 rfl

/-- Helper for C7: a pixel whose own luminance and both forward neighbours'
luminances agree produces the neutral normal `(127, 127, 255, 255)`,
whatever the intensity. -/
theorem normalPixel_const (data : List ℚ) (w h x y : ℕ) (intensity gv : ℚ)
    (h0 : lumAt data ((y * w + x) * 4) = gv)
    (h1 : x < w - 1 → lumAt data ((y * w + x) * 4 + 4) = gv)
    (h2 : y < h - 1 → lumAt data ((y * w + x) * 4 + w * 4) = gv) :
    normalPixel data w h x y intensity = (127, 127, 255, 255) := by
  unfold normalPixel
  by_cases hx : x < w - 1 <;> by_cases hy : y < h - 1 <;>
    simp only [hx, hy, if_true, if_false, ite_true, ite_false, h0] <;>
    [rw [h1 hx, h2 hy]; rw [h1 hx]; rw [h2 hy]; skip] <;>
    · ring_nf
      norm_num [packByte]
      decide

/-- A 2 × 2 source image all of whose pixels carry one uniform gray value
`g` in each color channel (alpha 255). -/
def uniformGray2x2 (g : ℚ) : SourceImage :=
  { width := 2, height := 2,
    content := [g, g, g, 255, g, g, g, 255, g, g, g, 255, g, g, g, 255],
    drawable := true }

/-- C7: normal-map synthesis on a 2 × 2 uniform-gray image returns a buffer
of the same 2 × 2 dimensions in which every pixel is exactly
`(127, 127, 255, 255)`: blue 255, red and green at the mid-gray
`⌊(0·2+1)·0.5·255⌋ = 127`, for every gray value and every intensity, with no
exception raised and no NaN produced (the computation is exact rational
arithmetic whose divisors are the constants 3 and 255). -/
theorem normal_map_uniform_gray_2x2 (g intensity : ℚ) :
    generateNormalMapCanvas (uniformGray2x2 g) intensity =
      SynthTexture.normalMapTex
        { width := 2, height := 2,
          pixels := List.replicate 4 (127, 127, 255, 255) } := by
  have hl : ∀ i : ℕ, i = 0 ∨ i = 4 ∨ i = 8 ∨ i = 12 →
      lumAt (uniformGray2x2 g).content i = (g + g + g) / 3 := by
    rintro i (rfl | rfl | rfl | rfl) <;> rfl
  have e00 := normalPixel_const (uniformGray2x2 g).content 2 2 0 0 intensity
    ((g + g + g) / 3) (hl _ (by norm_num)) (fun _ => hl _ (by norm_num))
    (fun _ => hl _ (by norm_num))
  have e10 := normalPixel_const (uniformGray2x2 g).content 2 2 1 0 intensity
    ((g + g + g) / 3) (hl _ (by norm_num)) (fun hc => absurd hc (by norm_num))
    (fun _ => hl _ (by norm_num))
  have e01 := normalPixel_const (uniformGray2x2 g).content 2 2 0 1 intensity
    ((g + g + g) / 3) (hl _ (by norm_num)) (fun _ => hl _ (by norm_num))
    (fun hc => absurd hc (by norm_num))
  have e11 := normalPixel_const (uniformGray2x2 g).content 2 2 1 1 intensity
    ((g + g + g) / 3) (hl _ (by norm_num)) (fun hc => absurd hc (by norm_num))
    (fun hc => absurd hc (by norm_num))
  simp only [uniformGray2x2] at e00 e10 e01 e11
  have hbody : generateNormalMapBody (uniformGray2x2 g) intensity =
      Except.ok { width := 2, height := 2,
                  pixels := List.replicate 4 (127, 127, 255, 255) } := by
    unfold generateNormalMapBody
    norm_num [uniformGray2x2, dimOrDefault]
    rw [show List.range 4 = [0, 1, 2, 3] from rfl]
    simp only [List.map_cons, List.map_nil]
    norm_num
    rw [e00, e10, e01, e11]
    rfl
  unfold generateNormalMapCanvas
  rw [hbody]

/-- Engine state in the middle of the cinematic zoom: the main loop's next
frame is tracked as `animationId = 7`, while the zoom chain's own next frame
is pending under the untracked id `8`. -/
def midZoomEngineState : EngineState :=
  { pendingFrames := [⟨7, .mainLoop⟩, ⟨8, .zoomFrame⟩],
    startupTimerPending := false,
    animationId := some 7,
    resizeListenerAttached := true,
    planetGeoDisposed := false, planetMatDisposed := false,
    starsGeoDisposed := false, starsMatDisposed := false,
    rendererDisposed := false,
    domAttached := true,
    zooming := true,
    zoomStartTime := 1000, zoomStartLen := 129, zoomStartY := 12,
    cameraPose := { sweep := 0, radius := 129, height := 12 },
    nextFrameId := 9 }

/-- C3 counterexample: disposing while the ZoomingIn state is active does
leave a dangling frame callback — `dispose` cancels only the id stored in
`animationId`, and the zoom chain's self-scheduled callback (id 8) is still
pending afterwards, so a frame callback fires again after the first
`dispose()`. -/
theorem dispose_mid_zoom_leaves_frame_callback :
    midZoomEngineState.zooming = true ∧
    dispose midZoomEngineState = Except.ok (disposePure midZoomEngineState) ∧
    (disposePure midZoomEngineState).pendingFrames =
      [⟨8, CallbackKind.zoomFrame⟩] := by
  refine ⟨rfl, dispose_eq_pure _, ?_⟩
  decide

/-- C3 amended: `dispose()` cancels the tracked animation-frame callback (so
when every pending main-loop callback is the tracked one — the invariant the
engine maintains — no main-loop callback remains), detaches the resize
listener, releases the exoplanet's and star field's geometry and material,
releases the rendering context, detaches the output element, and a second
`dispose()` in sequence also runs without throwing; however callbacks of the
zoom chain are not covered by the cancellation (see the counterexample), so
the no-dangling-callback guarantee holds for the tracked main loop only, not
regardless of camera state. -/
theorem dispose_releases_resources_and_is_safe_twice (s : EngineState)
    (hmain : ∀ c ∈ s.pendingFrames, c.kind = CallbackKind.mainLoop →
      s.animationId = some c.id) :
    dispose s = Except.ok (disposePure s) ∧
    (∀ c ∈ (disposePure s).pendingFrames, c.kind ≠ CallbackKind.mainLoop) ∧
    (disposePure s).resizeListenerAttached = false ∧
    (disposePure s).planetGeoDisposed = true ∧
    (disposePure s).planetMatDisposed = true ∧
    (disposePure s).starsGeoDisposed = true ∧
    (disposePure s).starsMatDisposed = true ∧
    (disposePure s).rendererDisposed = true ∧
    (disposePure s).domAttached = false ∧
    dispose (disposePure s) = Except.ok (disposePure (disposePure s)) := by
  refine ⟨dispose_eq_pure s, ?_, ?_, ?_, ?_, ?_, ?_, ?_, rfl, dispose_eq_pure _⟩
  · intro c hc hk
    cases ha : s.animationId with
    | none =>
      have hpend : (disposePure s).pendingFrames = s.pendingFrames := by
        unfold disposePure
        rw [ha]
      rw [hpend] at hc
      have := hmain c hc hk
      rw [ha] at this
      cases this
    | some aid =>
      have hpend : (disposePure s).pendingFrames =
          (cancelFrame aid s).pendingFrames := by
        unfold disposePure
        rw [ha]
      rw [hpend] at hc
      unfold cancelFrame at hc
      have hmem := List.mem_filter.mp hc
      have hid := hmain c hmem.1 hk
      rw [ha] at hid
      have hcid : aid = c.id := by
        injection hid
      have hne := hmem.2
      simp [hcid] at hne
  all_goals
    unfold disposePure
    cases s.animationId <;> rfl

/-- Witness for C3 amended at the concrete mid-zoom state, in which the only
pending main-loop callback carries the tracked id. -/
theorem dispose_releases_resources_witness :
    dispose midZoomEngineState = Except.ok (disposePure midZoomEngineState) ∧
    (disposePure midZoomEngineState).rendererDisposed = true ∧
    (disposePure midZoomEngineState).domAttached = false := by
  have h := dispose_releases_resources_and_is_safe_twice midZoomEngineState
    (by decide)
  exact ⟨h.1, h.2.2.2.2.2.2.2.1, h.2.2.2.2.2.2.2.2.1⟩

/-- C10: `dispose()` cancels neither the startup timer nor an in-progress
zoom.  The startup timer survives disposal and, when it later fires, still
starts the zoom (setting `zooming`, running a first `zoomStep`, and
scheduling a follow-up frame whose id is not recorded in `animationId`);
pending zoom-chain callbacks — whose ids differ from the tracked main-loop
id — survive the `cancelAnimationFrame(animationId)` call; and firing a zoom
frame after disposal still writes the eased camera pose, reschedules itself
while progress is below `1`, and on reaching progress `1` writes the
terminal pose and stops. -/
theorem dispose_keeps_startup_timer_and_zoom_chain
    (s s1 : EngineState) (now : ℚ) (c : FrameCallback)
    (hdisp : dispose s = Except.ok s1) :
    s1.startupTimerPending = s.startupTimerPending ∧
    (∀ aid, s.animationId = some aid → c.id ≠ aid →
      c ∈ s.pendingFrames → c ∈ s1.pendingFrames) ∧
    (s.animationId = none → c ∈ s.pendingFrames → c ∈ s1.pendingFrames) ∧
    (s1.startupTimerPending = true →
      (fireStartupTimer now s1).zooming = true ∧
      (⟨s1.nextFrameId, CallbackKind.zoomFrame⟩ : FrameCallback) ∈
        (fireStartupTimer now s1).pendingFrames ∧
      (fireStartupTimer now s1).animationId = s1.animationId) ∧
    ((fireZoomFrame now c s1).cameraPose =
        zoomStepPose s1.zoomStartLen s1.zoomStartY (now - s1.zoomStartTime)
          zoomDuration ∧
      (fireZoomFrame now c s1).animationId = s1.animationId ∧
      (now - s1.zoomStartTime < zoomDuration →
        (⟨s1.nextFrameId, CallbackKind.zoomFrame⟩ : FrameCallback) ∈
          (fireZoomFrame now c s1).pendingFrames) ∧
      (zoomDuration ≤ now - s1.zoomStartTime →
        (fireZoomFrame now c s1).zooming = false ∧
        (fireZoomFrame now c s1).cameraPose =
          { sweep := 0.25, radius := orbitRadius, height := orbitHeight })) := by
  rw [dispose_eq_pure] at hdisp
  injection hdisp with hs1
  subst hs1
  have hdur : (0 : ℚ) < zoomDuration := by norm_num [zoomDuration]
  refine ⟨?_, ?_, ?_, ?_, ?_, ?_, ?_, ?_⟩
  · unfold disposePure
    cases s.animationId <;> rfl
  · intro aid ha hne hm
    have hpend : (disposePure s).pendingFrames =
        (cancelFrame aid s).pendingFrames := by
      unfold disposePure
      rw [ha]
    rw [hpend]
    unfold cancelFrame
    exact List.mem_filter.mpr ⟨hm, by simpa using hne⟩
  · intro ha hm
    have hpend : (disposePure s).pendingFrames = s.pendingFrames := by
      unfold disposePure
      rw [ha]
    rw [hpend]
    exact hm
  · intro hst
    unfold fireStartupTimer
    rw [if_pos hst]
    unfold startZoomToPlanet zoomStepRun
    rw [if_pos (by simpa using zoomT_lt_one hdur hdur)]
    refine ⟨rfl, ?_, rfl⟩
    simp [requestFrame]
  · unfold fireZoomFrame zoomStepRun
    by_cases hb : zoomT (now - (disposePure s).zoomStartTime) zoomDuration < 1 <;>
      simp [hb, requestFrame]
  · unfold fireZoomFrame zoomStepRun
    by_cases hb : zoomT (now - (disposePure s).zoomStartTime) zoomDuration < 1 <;>
      simp [hb, requestFrame]
  · intro hlt
    unfold fireZoomFrame zoomStepRun
    rw [if_pos (by simpa using zoomT_lt_one hdur hlt)]
    simp [requestFrame]
  · intro hge
    unfold fireZoomFrame zoomStepRun
    rw [if_neg (by simpa using not_lt.mpr (zoomT_eq_one hdur hge).ge)]
    exact ⟨rfl, by simpa using zoomStepPose_terminal _ _ hdur hge⟩

/-- Witness for C10 at the concrete mid-zoom state. -/
theorem dispose_keeps_zoom_chain_witness :
    (disposePure midZoomEngineState).startupTimerPending =
      midZoomEngineState.startupTimerPending ∧
    (⟨8, CallbackKind.zoomFrame⟩ : FrameCallback) ∈
      (disposePure midZoomEngineState).pendingFrames := by
  have h := dispose_keeps_startup_timer_and_zoom_chain midZoomEngineState
    (disposePure midZoomEngineState) 7000 ⟨8, .zoomFrame⟩ (dispose_eq_pure _)
  exact ⟨h.1, h.2.1 7 rfl (by norm_num) (by decide)⟩

end ExoplanetScene
